import Mathlib

/-!
Verification of the AQI advisory logic of a Streamlit air-quality app
(src/app.py).  AQI values are modelled as rationals; the two core pure
functions `get_aqi_category` and `get_recommendations` are translated
directly from the source, and the prediction branch of `main` is modelled
as an explicit request handler that also records which inputs were sent to
the scoring function.
-/

namespace AqiApp

/-- Translation of `get_aqi_category` (src/app.py lines 62-74): returns the
triple (category label, css class, description). -/
def get_aqi_category (aqi_value : ℚ) : String × String × String :=
  if aqi_value ≤ 50 then
    ("Good", "good", "😊 Air quality is satisfactory")
  else if aqi_value ≤ 100 then
    ("Moderate", "moderate", "😐 Air quality is acceptable")
  else if aqi_value ≤ 150 then
    ("Unhealthy for Sensitive Groups", "unhealthy-sensitive", "😷 Sensitive groups may be affected")
  else if aqi_value ≤ 200 then
    ("Unhealthy", "unhealthy", "🤒 Everyone may be affected")
  else if aqi_value ≤ 300 then
    ("Very Unhealthy", "very-unhealthy", "🚨 Health alert")
  else
    ("Hazardous", "hazardous", "💀 Health warning")

/-- Translation of `get_recommendations` (src/app.py lines 77-110): the
dictionary lookup `recommendations.get(category, [])` becomes a chain of
string comparisons with default `[]`. -/
def get_recommendations (category : String) : List String :=
  if category = "Good" then
    ["✅ Perfect for outdoor activities and exercise",
     "✅ No restrictions needed",
     "✅ Great day for children to play outside"]
  else if category = "Moderate" then
    ["⚠️ Generally acceptable for most people",
     "⚠️ Sensitive individuals should reduce prolonged exertion",
     "💧 Stay hydrated if exercising outdoors"]
  else if category = "Unhealthy for Sensitive Groups" then
    ["🚫 Sensitive groups should reduce outdoor activities",
     "👵 Older adults and children should limit exertion",
     "🏠 Consider moving activities indoors"]
  else if category = "Unhealthy" then
    ["🚨 Everyone should reduce outdoor activities",
     "💪 Avoid strenuous exercise outdoors",
     "😷 Wear masks if going outside"]
  else if category = "Very Unhealthy" then
    ["🆘 Avoid all outdoor activities",
     "🏠 Stay indoors with windows closed",
     "💨 Use air purifiers"]
  else if category = "Hazardous" then
    ["🔥 HEALTH EMERGENCY - Stay indoors",
     "🆘 Cancel all outdoor activities",
     "🏥 Seek medical help if symptoms appear"]
  else
    []

/-- The six category labels of the app, in ascending order of severity. -/
def categoryLabels : List String :=
  ["Good", "Moderate", "Unhealthy for Sensitive Groups",
   "Unhealthy", "Very Unhealthy", "Hazardous"]

/-- Severity rank of a category label under the order
Good < Moderate < Unhealthy for Sensitive Groups < Unhealthy <
Very Unhealthy < Hazardous (position in `categoryLabels`; unknown labels
rank 6, above all). -/
def severityRank (label : String) : ℕ :=
  if label = "Good" then 0
  else if label = "Moderate" then 1
  else if label = "Unhealthy for Sensitive Groups" then 2
  else if label = "Unhealthy" then 3
  else if label = "Very Unhealthy" then 4
  else if label = "Hazardous" then 5
  else 6

/-- The six category variants as a closed enumerated type. -/
inductive AqiCategory where
  | good
  | moderate
  | unhealthySensitive
  | unhealthy
  | veryUnhealthy
  | hazardous
deriving DecidableEq, Repr

/-- The label string of each category variant. -/
def AqiCategory.label : AqiCategory → String
  | .good => "Good"
  | .moderate => "Moderate"
  | .unhealthySensitive => "Unhealthy for Sensitive Groups"
  | .unhealthy => "Unhealthy"
  | .veryUnhealthy => "Very Unhealthy"
  | .hazardous => "Hazardous"

/-- Interval membership of each category, as the spec defines the six
intervals: Good [0,50], Moderate (50,100], Unhealthy-for-Sensitive-Groups
(100,150], Unhealthy (150,200], Very-Unhealthy (200,300],
Hazardous (300,∞). -/
def AqiCategory.inInterval : AqiCategory → ℚ → Prop
  | .good, v => 0 ≤ v ∧ v ≤ 50
  | .moderate, v => 50 < v ∧ v ≤ 100
  | .unhealthySensitive, v => 100 < v ∧ v ≤ 150
  | .unhealthy, v => 150 < v ∧ v ≤ 200
  | .veryUnhealthy, v => 200 < v ∧ v ≤ 300
  | .hazardous, v => 300 < v

instance (c : AqiCategory) (v : ℚ) : Decidable (c.inInterval v) := by
  cases c <;> simp only [AqiCategory.inInterval] <;> infer_instance

/-- Spec-side characterization of the classify algorithm, following the
spec text: evaluate the interval boundaries in ascending order and return
the first category whose upper bound is not exceeded; if none matches,
Hazardous. -/
def specFirstCategory (v : ℚ) : List (ℚ × String) → String
  | [] => "Hazardous"
  | (bound, cat) :: rest => if v ≤ bound then cat else specFirstCategory v rest

/-- The ascending boundary table of the spec: (50, Good), (100, Moderate),
(150, Unhealthy for Sensitive Groups), (200, Unhealthy),
(300, Very Unhealthy). -/
def boundaryTable : List (ℚ × String) :=
  [(50, "Good"), (100, "Moderate"), (150, "Unhealthy for Sensitive Groups"),
   (200, "Unhealthy"), (300, "Very Unhealthy")]

/-- The five pollutant readings of one prediction request
(PM2.5, PM10, NO₂, CO, O₃). -/
structure Inputs where
  pm25 : ℚ
  pm10 : ℚ
  no2 : ℚ
  co : ℚ
  o3 : ℚ
deriving DecidableEq, Repr

/-- What the prediction branch of `main` displays for one submission. -/
inductive Outcome where
  /-- Nothing displayed: the form was not submitted. -/
  | noDisplay
  /-- The `st.error` branch for `submitted and model is None`
  (src/app.py line 212). -/
  | modelNotLoaded (msg : String)
  /-- The `except` branch: `st.error(f"Prediction error: ...")`
  (src/app.py line 209). -/
  | predictionError (msg : String)
  /-- The successful display: predicted AQI, category triple and
  recommendation list (src/app.py lines 182-197). -/
  | success (aqi : ℚ) (category cssClass description : String)
      (recs : List String)
deriving DecidableEq, Repr

/-- Translation of `load_model` (src/app.py lines 47-59): if the two
artifacts load, return them; on any exception show an error and return
`(None, None)`.  The artifact contents are abstract. -/
def load_model {M S : Type} (artifacts : Option (M × S)) : Option M × Option S :=
  match artifacts with
  | some (m, s) => (some m, some s)
  | none => (none, none)

/-- The `try` body of the prediction branch (src/app.py lines 175-209):
score the inputs, classify, look up recommendations; a raised exception is
caught and displayed as `Prediction error: ...`.  The second component
records the inputs sent to the scoring function. -/
def runPrediction (score : Inputs → Except String ℚ) (inp : Inputs) :
    Outcome × List Inputs :=
  match score inp with
  | .error e => (.predictionError ("Prediction error: " ++ e), [inp])
  | .ok p =>
      let r := get_aqi_category p
      (.success p r.1 r.2.1 r.2.2 (get_recommendations r.1), [inp])

/-- The prediction branch of `main` (src/app.py lines 174-212):
`if submitted and model is not None: try ... except ...` then
`elif submitted and model is None: st.error(...)`.  Returns the displayed
outcome and the list of inputs sent to the scoring function. -/
def handleSubmission {M : Type} (model : Option M) (submitted : Bool)
    (score : Inputs → Except String ℚ) (inp : Inputs) : Outcome × List Inputs :=
  if submitted && model.isSome then
    runPrediction score inp
  else if submitted && model.isNone then
    (.modelNotLoaded "Model not loaded. Please check if model files are uploaded.", [])
  else
    (.noDisplay, [])

/-- A sequence of independent submissions: each rerun of the script handles
one request; no state is carried from one to the next. -/
def processRequests {M : Type} (model : Option M)
    (score : Inputs → Except String ℚ) : List (Bool × Inputs) → List Outcome
  | [] => []
  | r :: rest =>
      (handleSubmission model r.1 score r.2).1 :: processRequests model score rest

/-- The category variant chosen by the threshold chain of
`get_aqi_category`, as a value of the closed enumerated type. -/
def classifyCat (v : ℚ) : AqiCategory :=
  if v ≤ 50 then .good
  else if v ≤ 100 then .moderate
  else if v ≤ 150 then .unhealthySensitive
  else if v ≤ 200 then .unhealthy
  else if v ≤ 300 then .veryUnhealthy
  else .hazardous

lemma get_aqi_category_fst (v : ℚ) :
    (get_aqi_category v).1 = (classifyCat v).label := by
  unfold get_aqi_category classifyCat
  split_ifs <;> rfl

lemma classifyCat_inInterval (v : ℚ) (h0 : 0 ≤ v) :
    (classifyCat v).inInterval v := by
  unfold classifyCat
  split_ifs with h1 h2 h3 h4 h5 <;>
    simp only [AqiCategory.inInterval] <;>
    first
      | (constructor <;> linarith)
      | linarith

lemma inInterval_unique (v : ℚ) (c₁ c₂ : AqiCategory)
    (h₁ : c₁.inInterval v) (h₂ : c₂.inInterval v) : c₁ = c₂ := by
  cases c₁ <;> cases c₂ <;>
    simp only [AqiCategory.inInterval] at h₁ h₂ <;>
    first
      | rfl
      | (exfalso
         first
           | (obtain ⟨a₁, b₁⟩ := h₁; obtain ⟨a₂, b₂⟩ := h₂; linarith)
           | (obtain ⟨a₁, b₁⟩ := h₁; linarith)
           | (obtain ⟨a₂, b₂⟩ := h₂; linarith)
           | linarith)

end AqiApp

namespace AqiApp

/-- C1: every AQI value in [0, 50] is classified "Good", and each exact
boundary value 50, 100, 150, 200, 300 belongs to the lower of its two
adjacent categories. -/
theorem claim_C1 (v : ℚ) (h0 : 0 ≤ v) (h50 : v ≤ 50) :
    (get_aqi_category v).1 = "Good" ∧
    (get_aqi_category 50).1 = "Good" ∧
    (get_aqi_category 100).1 = "Moderate" ∧
    (get_aqi_category 150).1 = "Unhealthy for Sensitive Groups" ∧
    (get_aqi_category 200).1 = "Unhealthy" ∧
    (get_aqi_category 300).1 = "Very Unhealthy" := by
  refine ⟨?_, by decide, by decide, by decide, by decide, by decide⟩
  simp [get_aqi_category, h50]

theorem claim_C1_witness :
    (get_aqi_category 25).1 = "Good" ∧
    (get_aqi_category 50).1 = "Good" ∧
    (get_aqi_category 100).1 = "Moderate" ∧
    (get_aqi_category 150).1 = "Unhealthy for Sensitive Groups" ∧
    (get_aqi_category 200).1 = "Unhealthy" ∧
    (get_aqi_category 300).1 = "Very Unhealthy" :=
  claim_C1 25 (by norm_num) (by norm_num)

/-- C2: the classifier agrees with the spec algorithm (scan the ascending
boundary table and return the first category whose upper bound is not
exceeded); every value above 300 is "Hazardous"; 50.1 is "Moderate" and
301 is "Hazardous". -/
theorem claim_C2 :
    (∀ v : ℚ, (get_aqi_category v).1 = specFirstCategory v boundaryTable) ∧
    (∀ v : ℚ, 300 < v → (get_aqi_category v).1 = "Hazardous") ∧
    (get_aqi_category 50.1).1 = "Moderate" ∧
    (get_aqi_category 301).1 = "Hazardous" := by
  refine ⟨?_, ?_, by norm_num [get_aqi_category], by norm_num [get_aqi_category]⟩
  · intro v
    simp only [boundaryTable, specFirstCategory]
    unfold get_aqi_category
    split_ifs <;> rfl
  · intro v hv
    unfold get_aqi_category
    split_ifs <;> first | rfl | (exfalso; linarith)

theorem claim_C2_witness :
    (get_aqi_category 7).1 = specFirstCategory 7 boundaryTable ∧
    (get_aqi_category 400).1 = "Hazardous" :=
  ⟨claim_C2.1 7, claim_C2.2.1 400 (by norm_num)⟩

/-- C3: for every finite non-negative AQI value exactly one of the six
category intervals matches, and the classifier returns the label of that
unique category. -/
theorem claim_C3 (v : ℚ) (h0 : 0 ≤ v) :
    (∃! c : AqiCategory, c.inInterval v) ∧
    (∀ c : AqiCategory, c.inInterval v → (get_aqi_category v).1 = c.label) := by
  constructor
  · exact ⟨classifyCat v, classifyCat_inInterval v h0,
      fun y hy => inInterval_unique v y (classifyCat v) hy (classifyCat_inInterval v h0)⟩
  · intro c hc
    rw [get_aqi_category_fst,
      inInterval_unique v (classifyCat v) c (classifyCat_inInterval v h0) hc]

theorem claim_C3_witness :
    (∃! c : AqiCategory, c.inInterval (120 : ℚ)) ∧
    (∀ c : AqiCategory, c.inInterval (120 : ℚ) →
      (get_aqi_category (120 : ℚ)).1 = c.label) :=
  claim_C3 120 (by norm_num)

/-- C4: each of the six category labels has exactly 3 recommendation
strings (a non-empty list), and every classification result carries one of
the six labels together with a non-empty severity tag and a non-empty
one-line description. -/
theorem claim_C4 (l : String) (hl : l ∈ categoryLabels) :
    ((get_recommendations l).length = 3 ∧ get_recommendations l ≠ []) ∧
    (∀ v : ℚ, (get_aqi_category v).1 ∈ categoryLabels ∧
      (get_aqi_category v).2.1 ≠ "" ∧ (get_aqi_category v).2.2 ≠ "") := by
  constructor
  · simp only [categoryLabels, List.mem_cons, List.mem_singleton] at hl
    rcases hl with rfl | rfl | rfl | rfl | rfl | rfl | h
    · exact ⟨by decide, by decide⟩
    · exact ⟨by decide, by decide⟩
    · exact ⟨by decide, by decide⟩
    · exact ⟨by decide, by decide⟩
    · exact ⟨by decide, by decide⟩
    · exact ⟨by decide, by decide⟩
    · exact absurd h (by simp)
  · intro v
    unfold get_aqi_category
    split_ifs <;> refine ⟨by decide, by decide, by decide⟩

theorem claim_C4_witness :
    (((get_recommendations "Good").length = 3 ∧ get_recommendations "Good" ≠ []) ∧
      (∀ v : ℚ, (get_aqi_category v).1 ∈ categoryLabels ∧
        (get_aqi_category v).2.1 ≠ "" ∧ (get_aqi_category v).2.2 ≠ "")) :=
  claim_C4 "Good" (by decide)

/-- C5: classification and recommendation lookup are deterministic
functions of their argument alone, and the per-submission handler threads
no state: each request in a sequence is handled independently of the ones
before it. -/
theorem claim_C5 (v₁ v₂ : ℚ) (c₁ c₂ : String) (M : Type) (model : Option M)
    (score : Inputs → Except String ℚ) (s₁ : Bool) (i₁ : Inputs)
    (rest : List (Bool × Inputs)) (hv : v₁ = v₂) (hc : c₁ = c₂) :
    get_aqi_category v₁ = get_aqi_category v₂ ∧
    get_recommendations c₁ = get_recommendations c₂ ∧
    processRequests model score ((s₁, i₁) :: rest) =
      (handleSubmission model s₁ score i₁).1 :: processRequests model score rest := by
  subst hv
  subst hc
  exact ⟨rfl, rfl, rfl⟩

theorem claim_C5_witness :
    get_aqi_category 42 = get_aqi_category 42 ∧
    get_recommendations "Good" = get_recommendations "Good" ∧
    processRequests (some ()) (fun _ => Except.ok (42 : ℚ))
        ((true, ⟨1, 2, 3, 4, 5⟩) :: []) =
      (handleSubmission (some ()) true (fun _ => Except.ok (42 : ℚ))
        ⟨1, 2, 3, 4, 5⟩).1 ::
        processRequests (some ()) (fun _ => Except.ok (42 : ℚ)) [] :=
  claim_C5 42 42 "Good" "Good" Unit (some ()) (fun _ => Except.ok (42 : ℚ))
    true ⟨1, 2, 3, 4, 5⟩ [] rfl rfl

/-- C6: when the artifacts fail to load, `load_model` yields `(None, None)`;
a subsequent submission with that model hits the model-not-loaded error
branch, and the scoring path is never entered (the recorded scoring trace
is empty, whatever the scoring function is). -/
theorem claim_C6 (M S : Type) (score : Inputs → Except String ℚ) (inp : Inputs) :
    load_model (none : Option (M × S)) = (none, none) ∧
    handleSubmission (load_model (none : Option (M × S))).1 true score inp =
      (.modelNotLoaded "Model not loaded. Please check if model files are uploaded.",
        []) :=
  ⟨rfl, rfl⟩

/-- C7: when scoring raises, the handler displays the readable message
`Prediction error: ...`; the scoring trace is exactly one attempt (no
retry), and a subsequent request in the sequence is handled exactly as if
the failed one had never happened. -/
theorem claim_C7 (M : Type) (m : M) (score : Inputs → Except String ℚ)
    (inp : Inputs) (e : String) (reqs : List (Bool × Inputs))
    (h : score inp = .error e) :
    handleSubmission (some m) true score inp =
      (.predictionError ("Prediction error: " ++ e), [inp]) ∧
    processRequests (some m) score ((true, inp) :: reqs) =
      .predictionError ("Prediction error: " ++ e) ::
        processRequests (some m) score reqs := by
  have hrun : handleSubmission (some m) true score inp =
      (.predictionError ("Prediction error: " ++ e), [inp]) := by
    simp [handleSubmission, runPrediction, h]
  exact ⟨hrun, by simp [processRequests, hrun]⟩

theorem claim_C7_witness :
    handleSubmission (some ()) true (fun _ => Except.error "boom")
        ⟨1, 2, 3, 4, 5⟩ =
      (.predictionError ("Prediction error: " ++ "boom"), [⟨1, 2, 3, 4, 5⟩]) ∧
    processRequests (some ()) (fun _ => Except.error "boom")
        ((true, ⟨1, 2, 3, 4, 5⟩) :: [(true, ⟨9, 9, 9, 9, 9⟩)]) =
      .predictionError ("Prediction error: " ++ "boom") ::
        processRequests (some ()) (fun _ => Except.error "boom")
          [(true, ⟨9, 9, 9, 9, 9⟩)] :=
  claim_C7 Unit () (fun _ => Except.error "boom") ⟨1, 2, 3, 4, 5⟩ "boom"
    [(true, ⟨9, 9, 9, 9, 9⟩)] rfl

/-- C8 as stated is false: a negative predicted AQI does not fall through
to "Hazardous" — it satisfies the first check `aqi_value <= 50` and is
classified "Good". -/
theorem claim_C8_counterexample :
    (get_aqi_category (-1)).1 = "Good" ∧ (get_aqi_category (-1)).1 ≠ "Hazardous" := by
  constructor <;> norm_num [get_aqi_category] <;> decide

/-- C8 amended: only values exceeding all five threshold checks (v > 300)
reach the implicit fallthrough to "Hazardous"; a negative predicted AQI is
matched by the first check and classified "Good". -/
theorem claim_C8 (v : ℚ) :
    (300 < v → (get_aqi_category v).1 = "Hazardous") ∧
    (v < 0 → (get_aqi_category v).1 = "Good") := by
  constructor <;> intro hv <;> unfold get_aqi_category <;>
    split_ifs <;> first | rfl | (exfalso; linarith)

theorem claim_C8_witness :
    (get_aqi_category 301).1 = "Hazardous" ∧ (get_aqi_category (-1)).1 = "Good" :=
  ⟨(claim_C8 301).1 (by norm_num), (claim_C8 (-1)).2 (by norm_num)⟩

/-- C9: for any category string outside the six known labels,
`get_recommendations` returns the empty list. -/
theorem claim_C9 (c : String) (h : c ∉ categoryLabels) :
    get_recommendations c = [] := by
  simp only [categoryLabels, List.mem_cons, List.mem_singleton, not_or] at h
  obtain ⟨h1, h2, h3, h4, h5, h6, -⟩ := h
  simp [get_recommendations, h1, h2, h3, h4, h5, h6]

theorem claim_C9_witness : get_recommendations "Unknown" = [] :=
  claim_C9 "Unknown" (by decide)

/-- C10: the classifier is monotone in severity: a larger AQI value is
never assigned a strictly less severe category, under the order
Good < Moderate < Unhealthy for Sensitive Groups < Unhealthy <
Very Unhealthy < Hazardous. -/
theorem claim_C10 (v₁ v₂ : ℚ) (h : v₁ ≤ v₂) :
    severityRank (get_aqi_category v₁).1 ≤ severityRank (get_aqi_category v₂).1 := by
  unfold get_aqi_category
  split_ifs <;> first | decide | (exfalso; linarith)

theorem claim_C10_witness :
    severityRank (get_aqi_category 10).1 ≤ severityRank (get_aqi_category 200).1 :=
  claim_C10 10 200 (by norm_num)

end AqiApp
